import Mathlib

/-!
Verification development for the DLG-attack experiment driver
(`src/experiment.py`, class `Experiment`).

The Python code is shallowly embedded: tensors are flat lists of rationals
together with a shape, the autograd/optimizer/dataset machinery that lives in
external libraries (torch, torchvision, skimage) is supplied through an `Env`
record of oracles, and the control flow of `Experiment.__init__`, `train`,
`compute_original_grad`, `load_dataset`, `create_loss_measure` and `init_data`
is translated line by line.
-/

namespace DLG

/-- Displayable image produced by `transforms.ToPILImage` / numpy conversion. -/
abbrev Image := List ℚ

/-- Raw dataset entry before `Resize/CenterCrop/ToTensor` preprocessing. -/
abbrev RawImage := List ℚ

/-- A torch tensor: a shape, the flattened contents, whether gradient tracking
is enabled (`requires_grad`), and whether the tensor is attached to an autograd
graph (has a `grad_fn`). -/
structure Tensor where
  shape : List ℕ
  data : List ℚ
  requiresGrad : Bool
  attachedToGraph : Bool
deriving DecidableEq

/-- Number of elements of a tensor of the given shape (`torch.Size` product). -/
def numel (shape : List ℕ) : ℕ := shape.prod

/-- In-place `t.requires_grad_(True)`. -/
def requiresGrad_ (t : Tensor) : Tensor := { t with requiresGrad := true }

/-- The `_.detach().clone()` applied to each original gradient tensor in
`compute_original_grad`: a fresh copy detached from the computation graph. -/
def detachClone (t : Tensor) : Tensor :=
  { t with requiresGrad := false, attachedToGraph := false }

/-- Source of ambient randomness: a stream of standard-uniform samples (used by
`torch.rand`) and a stream of standard-normal samples (used by `torch.randn`
and, after affine rescaling, by `torch.normal`). -/
structure RNG where
  uniforms : ℕ → ℚ
  normals : ℕ → ℚ

/-- `torch.rand(shape)`: i.i.d. U(0,1) samples drawn from the uniform stream
starting at offset `off`. -/
def torchRand (rng : RNG) (off : ℕ) (shape : List ℕ) : Tensor :=
  { shape := shape
    data := (List.range (numel shape)).map fun i => rng.uniforms (off + i)
    requiresGrad := false
    attachedToGraph := false }

/-- `torch.randn(shape)`: i.i.d. N(0,1) samples drawn from the normal stream
starting at offset `off`. -/
def torchRandn (rng : RNG) (off : ℕ) (shape : List ℕ) : Tensor :=
  { shape := shape
    data := (List.range (numel shape)).map fun i => rng.normals (off + i)
    requiresGrad := false
    attachedToGraph := false }

/-- `torch.normal(mean, std, size)`: each element is `mean + std * z` for a
fresh standard-normal sample `z`. -/
def torchNormal (rng : RNG) (off : ℕ) (mean std : ℚ) (shape : List ℕ) : Tensor :=
  { shape := shape
    data := (List.range (numel shape)).map fun i => mean + std * rng.normals (off + i)
    requiresGrad := false
    attachedToGraph := false }

/-- `torch.cat(ts, 0)`: concatenate along the leading dimension. -/
def torchCat (ts : List Tensor) : Tensor :=
  { shape :=
      match ts with
      | [] => []
      | t :: _ => (ts.map fun u => u.shape.headD 0).sum :: t.shape.tail
    data := (ts.map Tensor.data).flatten
    requiresGrad := false
    attachedToGraph := false }

/-- A torchvision dataset: indexable items `(raw_image, class_label)`. -/
structure Dataset where
  items : List (RawImage × ℕ)
deriving DecidableEq

/-- The loss measure selected once at setup by `create_loss_measure`
(design: a tagged variant resolved at configuration time). -/
inductive LossMeasure where
  | euclidean : LossMeasure
  | gaussian (sigma : ℚ) (Q : ℚ) : LossMeasure
deriving DecidableEq

/-- The `self.losses` dictionary: named series of per-run scalar sequences. -/
structure Losses where
  psnr : List (List ℚ)
  ssim : List (List ℚ)
  mse : List (List ℚ)
deriving DecidableEq

/-- Python exceptions relevant to `Experiment`: `KeyError` from the dataset
dictionary lookup and `ValueError` (the InvalidConfiguration errors raised for
bad `measure` / `init_type`). -/
inductive PyError where
  | keyError (key : String) : PyError
  | valueError (msg : String) : PyError
deriving DecidableEq

/-- Message of the `ValueError` raised in `create_loss_measure`. -/
def measureMsg : String :=
  "Only keywords euclidean and gaussian are accepted for measure."

/-- Message of the `ValueError` raised in `init_data`. -/
def initTypeMsg : String :=
  "Only keywords uniform, gaussian and gaussian_shift are accepted for init_type."

/-- Whether a construction/training result failed with the InvalidConfiguration
error class (a `ValueError`). -/
def isInvalidConfiguration {α : Type} : Except PyError α → Bool
  | .error (.valueError _) => true
  | _ => false

/-- The state of an `Experiment` object after `__init__` finished. Field names
follow the Python attributes. -/
structure Experiment where
  num_epochs : ℕ
  batch_size : ℕ
  measure : String
  data_name : String
  img_index : List ℕ
  init_type : String
  Q : ℚ
  val_size : ℕ
  n_images : ℕ
  lr : ℚ
  dst : Dataset
  indices : List ℕ
  gt_data : Tensor
  gt_label : List Tensor
  gt_onehot_label : Tensor
  original_dy_dx : List Tensor
  loss_measure : LossMeasure
  iters : List ℕ
  losses : Losses
  history : List (List Image)
deriving DecidableEq

/-- External collaborators (torch / torchvision / skimage / the LeNet
classifier), supplied as oracles: the embedded code calls them but their
internals are out of scope. -/
structure Env where
  cifar : Dataset
  mnist : Dataset
  omniglot : Dataset
  svhn : Dataset
  randomChoices : ℕ → ℕ → List ℕ
  tp : RawImage → Tensor
  label_to_onehot : ℕ → Tensor
  autogradGrad : Tensor → Tensor → List Tensor
  lbfgsStep : ℚ → ℕ → Tensor × Tensor → Tensor × Tensor
  closureVal : Tensor × Tensor → ℚ
  toImage : Tensor → ℕ → Image
  firstImage : Tensor → Image
  psnr : Image → Image → ℚ
  mse : Image → Image → ℚ
  ssim : Image → Image → ℚ

/-- `Experiment.init_data`: initialize dummy data and label from the
distribution selected by `init_type`, consuming the random streams
sequentially (first the data tensor, then the label tensor), and enabling
gradient tracking on both. Unknown `init_type` raises `ValueError`. -/
def Experiment.init_data (exp : Experiment) (rng : RNG) :
    Except PyError (Tensor × Tensor) :=
  if exp.init_type = "uniform" then
    .ok (requiresGrad_ (torchRand rng 0 exp.gt_data.shape),
         requiresGrad_ (torchRand rng (numel exp.gt_data.shape) exp.gt_onehot_label.shape))
  else if exp.init_type = "gaussian" then
    .ok (requiresGrad_ (torchRandn rng 0 exp.gt_data.shape),
         requiresGrad_ (torchRandn rng (numel exp.gt_data.shape) exp.gt_onehot_label.shape))
  else if exp.init_type = "gaussian_shift" then
    .ok (requiresGrad_ (torchNormal rng 0 (1/2) (1/2) exp.gt_data.shape),
         requiresGrad_ (torchNormal rng (numel exp.gt_data.shape) (1/2) (1/2)
           exp.gt_onehot_label.shape))
  else
    .error (.valueError initTypeMsg)

/-- Steps of `Experiment.__init__` that are recorded in an execution trace, in
the order the constructor performs them. -/
inductive InitEvent where
  | loadDataset : InitEvent
  | loadGroundTruths : InitEvent
  | computeOriginalGrad : InitEvent
  | createLossMeasure : InitEvent
deriving DecidableEq

/-- `Experiment.load_dataset`: the dictionary `dsts` has exactly the keys
CIFAR, MNIST, Omniglot, SVHN; `dsts[self.data_name]` raises `KeyError` on any
other name. -/
def load_dataset (data_name : String) (env : Env) : Except PyError Dataset :=
  if data_name = "CIFAR" then .ok env.cifar
  else if data_name = "MNIST" then .ok env.mnist
  else if data_name = "Omniglot" then .ok env.omniglot
  else if data_name = "SVHN" then .ok env.svhn
  else .error (.keyError data_name)

/-- `format_image`: preprocess `dst[index][0]` with Resize/CenterCrop/ToTensor
and prepend a batch dimension (`view(1, *size)`). -/
def format_image (env : Env) (dst : Dataset) (index : ℕ) : Tensor :=
  let t := env.tp (dst.items.getD index ([], 0)).1
  { t with shape := 1 :: t.shape }

/-- `format_label`: take the class label `dst[index][1]` and one-hot encode it
via `label_to_onehot`. -/
def format_label (env : Env) (dst : Dataset) (index : ℕ) : Tensor :=
  env.label_to_onehot (dst.items.getD index ([], 0)).2

/-- `Experiment.load_ground_truths`: batch the formatted images and one-hot
labels with `torch.cat`. Returns `(gt_data, gt_label, gt_onehot_label)`. -/
def load_ground_truths (env : Env) (dst : Dataset) (indices : List ℕ) :
    Tensor × List Tensor × Tensor :=
  let images := indices.map (format_image env dst)
  let gt_label := indices.map (format_label env dst)
  (torchCat images, gt_label, torchCat gt_label)

/-- `Experiment.compute_original_grad`: run the forward/backward pass on the
ground-truth batch (external autograd oracle) and detach-and-clone every
resulting gradient tensor. -/
def compute_original_grad (env : Env) (gt_data gt_onehot_label : Tensor) :
    List Tensor :=
  (env.autogradGrad gt_data gt_onehot_label).map detachClone

/-- `torch.var` with its default unbiased estimator on a flat vector:
`sum((x - mean)^2) / (n - 1)`. -/
def torchVar (xs : List ℚ) : ℚ :=
  let mean := xs.sum / (xs.length : ℚ)
  (xs.map fun x => (x - mean) ^ 2).sum / ((xs.length : ℚ) - 1)

/-- `Experiment.create_loss_measure`: euclidean needs no parameters; gaussian
estimates `sigma` once as the variance of all flattened original-gradient
values concatenated together and pairs it with the user-supplied `Q`; any
other keyword raises `ValueError`. -/
def create_loss_measure (measure : String) (Q : ℚ) (original_dy_dx : List Tensor) :
    Except PyError LossMeasure :=
  if measure = "euclidean" then .ok .euclidean
  else if measure = "gaussian" then
    let all_grads := original_dy_dx.map Tensor.data
    .ok (.gaussian (torchVar all_grads.flatten) Q)
  else .error (.valueError measureMsg)

/-- `np.arange(0, num_epochs, val_size)`. -/
def npArange (num_epochs val_size : ℕ) : List ℕ :=
  (List.range ((num_epochs + val_size - 1) / val_size)).map fun i => i * val_size

/-- `Experiment.__init__` from loading the dataset onward, with the performed
steps recorded in a trace. Configuration parameters are passed positionally in
the order they are read from `params`. -/
def expInit (num_epochs batch_size : ℕ) (measure data_name : String)
    (img_index : List ℕ) (init_type : String) (Q : ℚ) (val_size n_images : ℕ)
    (lr : ℚ) (env : Env) : List InitEvent × Except PyError Experiment :=
  match load_dataset data_name env with
  | .error e => ([.loadDataset], .error e)
  | .ok dst =>
    let indices := env.randomChoices dst.items.length batch_size
    let gl := load_ground_truths env dst indices
    let original_dy_dx := compute_original_grad env gl.1 gl.2.2
    match create_loss_measure measure Q original_dy_dx with
    | .error e =>
        ([.loadDataset, .loadGroundTruths, .computeOriginalGrad, .createLossMeasure],
         .error e)
    | .ok loss_measure =>
        ([.loadDataset, .loadGroundTruths, .computeOriginalGrad, .createLossMeasure],
         .ok { num_epochs := num_epochs
               batch_size := batch_size
               measure := measure
               data_name := data_name
               img_index := img_index
               init_type := init_type
               Q := Q
               val_size := val_size
               n_images := n_images
               lr := lr
               dst := dst
               indices := indices
               gt_data := gl.1
               gt_label := gl.2.1
               gt_onehot_label := gl.2.2
               original_dy_dx := original_dy_dx
               loss_measure := loss_measure
               iters := npArange num_epochs val_size
               losses := { psnr := [], ssim := [], mse := [] }
               history := [] })

/-- The per-run metric lists `train_loss` accumulated inside one `train` call. -/
structure TrainLoss where
  psnr : List ℚ
  ssim : List ℚ
  mse : List ℚ
deriving DecidableEq

/-- Local state of the `for iters in range(self.num_epochs)` loop in `train`:
the current dummy tensors (mutated in place by `optimizer.step`), the history
entries appended so far, and the per-run metric lists. -/
structure LoopState where
  dl : Tensor × Tensor
  hist : List (List Image)
  tl : TrainLoss
deriving DecidableEq

/-- One iteration of the training loop: `optimizer.step(closure)` updates the
dummy tensors (external L-BFGS oracle, parameterized by `lr`), and every
`val_size` epochs a snapshot is recorded — one entry (the displayable copies of
the whole dummy batch) appended to history, and the PSNR/MSE/SSIM of the first
dummy image against the first ground-truth image appended to the per-run metric
lists. -/
def trainStep (exp : Experiment) (env : Env) (gt_im : Image)
    (st : LoopState) (i : ℕ) : LoopState :=
  let dl := env.lbfgsStep exp.lr i st.dl
  if i % exp.val_size = 0 then
    let dummy_im := env.firstImage dl.1
    { dl := dl
      hist := st.hist ++ [(List.range exp.batch_size).map fun j => env.toImage dl.1 j]
      tl := { psnr := st.tl.psnr ++ [env.psnr gt_im dummy_im]
              ssim := st.tl.ssim ++ [env.ssim gt_im dummy_im]
              mse := st.tl.mse ++ [env.mse gt_im dummy_im] } }
  else { st with dl := dl }

/-- The whole `for iters in range(self.num_epochs)` loop of `train`, starting
from freshly initialized dummy tensors, empty history and empty per-run metric
lists; `gt_im` is the first ground-truth image of the batch. -/
def trainFold (exp : Experiment) (env : Env) (dummy_data dummy_label : Tensor) :
    LoopState :=
  (List.range exp.num_epochs).foldl
    (trainStep exp env (env.firstImage exp.gt_data))
    { dl := (dummy_data, dummy_label), hist := []
      tl := { psnr := [], ssim := [], mse := [] } }

/-- `Experiment.train`: initialize the dummy tensors (which may raise
`ValueError` for a bad `init_type`), run the epoch loop, then append the
per-run metric lists to the accumulated `self.losses` series and the recorded
snapshots to `self.history`. -/
def Experiment.train (exp : Experiment) (env : Env) (rng : RNG) :
    Except PyError Experiment :=
  match exp.init_data rng with
  | .error e => .error e
  | .ok dl0 =>
    let fin := trainFold exp env dl0.1 dl0.2
    .ok { exp with
          history := exp.history ++ fin.hist
          losses := { psnr := exp.losses.psnr ++ [fin.tl.psnr]
                      ssim := exp.losses.ssim ++ [fin.tl.ssim]
                      mse := exp.losses.mse ++ [fin.tl.mse] } }

/-- The state of the dummy tensors after `n` optimizer steps starting from the
`init_data` output: `dlIter ... n` is the value of `(dummy_data, dummy_label)`
after the loop iterations `0, ..., n-1`. -/
def dlIter (exp : Experiment) (env : Env) (dl0 : Tensor × Tensor) : ℕ → Tensor × Tensor
  | 0 => dl0
  | n + 1 => env.lbfgsStep exp.lr n (dlIter exp env dl0 n)

/-- The epochs at which `train` records a snapshot: the loop indices
`i < num_epochs` with `i % val_size == 0`. -/
def snapshotEpochs (num_epochs val_size : ℕ) : List ℕ :=
  (List.range num_epochs).filter fun i => decide (i % val_size = 0)

/-- The displayable first dummy image at the snapshot taken in loop iteration
`i` (the state right after the optimizer step of that iteration). -/
def dummyImAt (exp : Experiment) (env : Env) (dl0 : Tensor × Tensor) (i : ℕ) : Image :=
  env.firstImage (dlIter exp env dl0 (i + 1)).1

/-- The history entry recorded at the snapshot of loop iteration `i`: the
displayable copies of the whole dummy batch. -/
def histEntryAt (exp : Experiment) (env : Env) (dl0 : Tensor × Tensor) (i : ℕ) :
    List Image :=
  (List.range exp.batch_size).map fun j => env.toImage (dlIter exp env dl0 (i + 1)).1 j

/-- Whether an `Experiment` construction or `train` run succeeded. -/
def isOk {α : Type} : Except PyError α → Bool
  | .ok _ => true
  | .error _ => false

/-! ### Gradient accumulators of the closure in `train`

The closure at lines 77-89 manipulates the `.grad` accumulators of the leaf
tensors of the autograd graph: `dummy_data`, `dummy_label`, and the classifier
parameters. The model below tracks exactly those accumulators through one
objective evaluation. -/

/-- The `.grad` accumulators of the leaf tensors touched by the closure. -/
structure GradAccum where
  dummyData : List ℚ
  dummyLabel : List ℚ
  netParams : List ℚ
deriving DecidableEq

/-- The gradients that one `grad_diff.backward()` call computes for the leaf
tensors of the graph of `grad_diff`. Because `dummy_dy_dx` is produced with
`create_graph=True`, the classifier parameters stay in that graph, so backward
computes a (generically nonzero) gradient for them as well; the numeric values
are determined by the external classifier and the current tensor values. -/
structure BackwardGrads where
  dummyData : List ℚ
  dummyLabel : List ℚ
  netParams : List ℚ
deriving DecidableEq

/-- `optimizer.zero_grad()` (line 78): clears the `.grad` accumulators of the
parameters registered with the optimizer, which per line 71
(`torch.optim.LBFGS([dummy_data, dummy_label], lr=self.lr)`) are exactly
`dummy_data` and `dummy_label`. -/
def optimizerZeroGrad (s : GradAccum) : GradAccum :=
  { s with dummyData := s.dummyData.map fun _ => 0
           dummyLabel := s.dummyLabel.map fun _ => 0 }

/-- `grad_diff.backward()` (line 87): adds the computed gradients into the
`.grad` accumulator of every leaf tensor requiring grad in the graph of
`grad_diff` — `dummy_data`, `dummy_label` and the classifier parameters. -/
def backwardAccumulate (b : BackwardGrads) (s : GradAccum) : GradAccum :=
  { dummyData := List.zipWith (· + ·) s.dummyData b.dummyData
    dummyLabel := List.zipWith (· + ·) s.dummyLabel b.dummyLabel
    netParams := List.zipWith (· + ·) s.netParams b.netParams }

/-- One objective evaluation of the closure (lines 77-89) at the level of the
`.grad` accumulators: `optimizer.zero_grad()` followed by the forward/backward
pass whose `backward()` accumulates the gradients `b`. -/
def closureEval (b : BackwardGrads) (s : GradAccum) : GradAccum :=
  backwardAccumulate b (optimizerZeroGrad s)

/-! ### Concrete instances used to evaluate the definitions -/

/-- An empty tensor, used as a fallback value. -/
def emptyTensor : Tensor := { shape := [], data := [], requiresGrad := false, attachedToGraph := false }

/-- A tiny concrete dataset with a single `(raw_image, label)` item. -/
def dataset0 : Dataset := { items := [([7, 9], 3)] }

/-- A concrete random source. -/
def rng0 : RNG := { uniforms := fun i => (i : ℚ) / 4, normals := fun i => (i : ℚ) - 1 }

/-- A concrete environment of external collaborators with small deterministic
behaviour, used to evaluate the embedded code on closed inputs. -/
def env0 : Env :=
  { cifar := dataset0
    mnist := dataset0
    omniglot := dataset0
    svhn := dataset0
    randomChoices := fun _ k => List.replicate k 0
    tp := fun r => { shape := [2], data := r.take 2, requiresGrad := false, attachedToGraph := false }
    label_to_onehot := fun n =>
      { shape := [1, 2], data := [(n : ℚ), 1], requiresGrad := false, attachedToGraph := false }
    autogradGrad := fun d _ =>
      [{ shape := [2], data := [d.data.sum, 3], requiresGrad := true, attachedToGraph := true }]
    lbfgsStep := fun lr i dl =>
      ({ dl.1 with data := dl.1.data.map fun x => x + lr + (i : ℚ) }, dl.2)
    closureVal := fun _ => 0
    toImage := fun t j => (j : ℚ) :: t.data
    firstImage := fun t => t.data
    psnr := fun a b => a.sum + b.sum
    mse := fun a b => a.sum - b.sum
    ssim := fun a b => a.sum * b.sum + 1 }

/-- A fallback `Experiment` value. -/
def emptyExperiment : Experiment :=
  { num_epochs := 0, batch_size := 0, measure := "", data_name := "", img_index := []
    init_type := "", Q := 0, val_size := 1, n_images := 0, lr := 0
    dst := { items := [] }, indices := [], gt_data := emptyTensor, gt_label := []
    gt_onehot_label := emptyTensor, original_dy_dx := [], loss_measure := .euclidean
    iters := [], losses := { psnr := [], ssim := [], mse := [] }, history := [] }

/-- Experiment constructed with an invalid `init_type` (rest of the
configuration valid). -/
def expBim : Experiment :=
  ((expInit 2 1 "euclidean" "CIFAR" [] "bimodal" 1 1 1 (1/2) env0).2).toOption.getD
    emptyExperiment

/-- Concrete euclidean-measure experiment: 2 epochs, snapshot every epoch. -/
def expE : Experiment :=
  ((expInit 2 1 "euclidean" "CIFAR" [] "uniform" 1 1 1 (1/2) env0).2).toOption.getD
    emptyExperiment

/-- The result of one `train` call on `expE`. -/
def expET : Experiment := (expE.train env0 rng0).toOption.getD emptyExperiment

/-- Concrete experiment with 3 epochs and snapshot interval 2, so that the
snapshot count `ceil(3/2) = 2` differs from both 3 and 1. -/
def expC : Experiment :=
  ((expInit 3 1 "euclidean" "CIFAR" [] "uniform" 1 2 1 (1/2) env0).2).toOption.getD
    emptyExperiment

/-- The dummy tensors produced by `init_data` for `expC` under `rng0`. -/
def dlC : Tensor × Tensor :=
  (expC.init_data rng0).toOption.getD (emptyTensor, emptyTensor)

/-- The result of one `train` call on `expC`. -/
def expCT : Experiment := (expC.train env0 rng0).toOption.getD emptyExperiment

/-- Concrete gaussian-measure experiment with `Q = 3/2`. -/
def expG : Experiment :=
  ((expInit 2 1 "gaussian" "CIFAR" [] "uniform" (3/2) 1 1 (1/2) env0).2).toOption.getD
    emptyExperiment

/-- The result of one `train` call on `expG`. -/
def expGT : Experiment := (expG.train env0 rng0).toOption.getD emptyExperiment

/-- Experiment with fixed ground-truth shapes and all-zero ground-truth
values, `init_type = "uniform"`. -/
def expGtA : Experiment :=
  { emptyExperiment with
    init_type := "uniform"
    gt_data := { shape := [1, 2], data := [0, 0], requiresGrad := false, attachedToGraph := false }
    gt_onehot_label :=
      { shape := [1, 3], data := [1, 0, 0], requiresGrad := false, attachedToGraph := false } }

/-- Same ground-truth shapes as `expGtA` but different ground-truth values. -/
def expGtB : Experiment :=
  { expGtA with
    gt_data := { shape := [1, 2], data := [5, 7], requiresGrad := false, attachedToGraph := false }
    gt_onehot_label :=
      { shape := [1, 3], data := [0, 0, 1], requiresGrad := false, attachedToGraph := false } }

/-- `expGtA` with `init_type = "gaussian"`. -/
def expGtG : Experiment := { expGtA with init_type := "gaussian" }

/-- `expGtA` with `init_type = "gaussian_shift"`. -/
def expGtS : Experiment := { expGtA with init_type := "gaussian_shift" }

/-! ### Inversion lemmas for successful construction and training -/

/-- Successful `__init__` determines every field of the resulting object and
records the four constructor steps in order. -/
lemma expInit_ok_inv (ne bs : ℕ) (ms dn : String) (ii : List ℕ) (it : String)
    (Q : ℚ) (vs ni : ℕ) (lr : ℚ) (env : Env) (exp : Experiment)
    (h : (expInit ne bs ms dn ii it Q vs ni lr env).2 = .ok exp) :
    ∃ dst lm, load_dataset dn env = .ok dst ∧
      create_loss_measure ms Q
        (compute_original_grad env
          (load_ground_truths env dst (env.randomChoices dst.items.length bs)).1
          (load_ground_truths env dst (env.randomChoices dst.items.length bs)).2.2)
        = .ok lm ∧
      (expInit ne bs ms dn ii it Q vs ni lr env).1
        = [.loadDataset, .loadGroundTruths, .computeOriginalGrad, .createLossMeasure] ∧
      exp = { num_epochs := ne, batch_size := bs, measure := ms, data_name := dn
              img_index := ii, init_type := it, Q := Q, val_size := vs, n_images := ni
              lr := lr, dst := dst
              indices := env.randomChoices dst.items.length bs
              gt_data := (load_ground_truths env dst (env.randomChoices dst.items.length bs)).1
              gt_label := (load_ground_truths env dst (env.randomChoices dst.items.length bs)).2.1
              gt_onehot_label := (load_ground_truths env dst (env.randomChoices dst.items.length bs)).2.2
              original_dy_dx := compute_original_grad env
                (load_ground_truths env dst (env.randomChoices dst.items.length bs)).1
                (load_ground_truths env dst (env.randomChoices dst.items.length bs)).2.2
              loss_measure := lm, iters := npArange ne vs
              losses := { psnr := [], ssim := [], mse := [] }, history := [] } := by
  cases hld : load_dataset dn env with
  | error e => simp [expInit, hld] at h
  | ok dst =>
    cases hcm : create_loss_measure ms Q
        (compute_original_grad env
          (load_ground_truths env dst (env.randomChoices dst.items.length bs)).1
          (load_ground_truths env dst (env.randomChoices dst.items.length bs)).2.2) with
    | error e => simp [expInit, hld, hcm] at h
    | ok lm =>
      refine ⟨dst, lm, rfl, hcm, ?_, ?_⟩
      · simp [expInit, hld, hcm]
      · simp [expInit, hld, hcm] at h
        exact h.symm

/-- Successful `train` determines the resulting object from the `init_data`
output and the loop fold. -/
lemma train_ok_inv (exp : Experiment) (env : Env) (rng : RNG) (exp' : Experiment)
    (h : exp.train env rng = .ok exp') :
    ∃ d0 l0, exp.init_data rng = .ok (d0, l0) ∧
      exp' = { exp with
               history := exp.history ++ (trainFold exp env d0 l0).hist
               losses := { psnr := exp.losses.psnr ++ [(trainFold exp env d0 l0).tl.psnr]
                           ssim := exp.losses.ssim ++ [(trainFold exp env d0 l0).tl.ssim]
                           mse := exp.losses.mse ++ [(trainFold exp env d0 l0).tl.mse] } } := by
  cases hid : exp.init_data rng with
  | error e => simp [Experiment.train, hid] at h
  | ok dl0 =>
    refine ⟨dl0.1, dl0.2, by simp [hid], ?_⟩
    simp [Experiment.train, hid] at h
    exact h.symm

/-! ### Characterization of the training loop -/

lemma trainStep_dl (exp : Experiment) (env : Env) (g : Image) (st : LoopState) (i : ℕ) :
    (trainStep exp env g st i).dl = env.lbfgsStep exp.lr i st.dl := by
  unfold trainStep; split <;> rfl

lemma trainStep_hist (exp : Experiment) (env : Env) (g : Image) (st : LoopState) (i : ℕ) :
    (trainStep exp env g st i).hist = st.hist ++
      (if i % exp.val_size = 0
       then [(List.range exp.batch_size).map fun j =>
              env.toImage (env.lbfgsStep exp.lr i st.dl).1 j]
       else []) := by
  unfold trainStep; split <;> simp_all

lemma trainStep_psnr (exp : Experiment) (env : Env) (g : Image) (st : LoopState) (i : ℕ) :
    (trainStep exp env g st i).tl.psnr = st.tl.psnr ++
      (if i % exp.val_size = 0
       then [env.psnr g (env.firstImage (env.lbfgsStep exp.lr i st.dl).1)]
       else []) := by
  unfold trainStep; split <;> simp_all

lemma trainStep_ssim (exp : Experiment) (env : Env) (g : Image) (st : LoopState) (i : ℕ) :
    (trainStep exp env g st i).tl.ssim = st.tl.ssim ++
      (if i % exp.val_size = 0
       then [env.ssim g (env.firstImage (env.lbfgsStep exp.lr i st.dl).1)]
       else []) := by
  unfold trainStep; split <;> simp_all

lemma trainStep_mse (exp : Experiment) (env : Env) (g : Image) (st : LoopState) (i : ℕ) :
    (trainStep exp env g st i).tl.mse = st.tl.mse ++
      (if i % exp.val_size = 0
       then [env.mse g (env.firstImage (env.lbfgsStep exp.lr i st.dl).1)]
       else []) := by
  unfold trainStep; split <;> simp_all

/-- Folding the loop body over iterations `k, ..., k+n-1` from a state whose
dummy tensors are `dlIter ... k` yields `dlIter ... (k+n)` and appends exactly
one history entry and one scalar per metric for every iteration divisible by
`val_size`. -/
lemma trainFold_go (exp : Experiment) (env : Env) (g : Image) (dl0 : Tensor × Tensor)
    (n : ℕ) : ∀ (k : ℕ) (st : LoopState), st.dl = dlIter exp env dl0 k →
    ((List.range' k n).foldl (trainStep exp env g) st).dl = dlIter exp env dl0 (k + n) ∧
    ((List.range' k n).foldl (trainStep exp env g) st).hist
      = st.hist ++ ((List.range' k n).filter fun i => decide (i % exp.val_size = 0)).map
          (histEntryAt exp env dl0) ∧
    ((List.range' k n).foldl (trainStep exp env g) st).tl.psnr
      = st.tl.psnr ++ ((List.range' k n).filter fun i => decide (i % exp.val_size = 0)).map
          (fun i => env.psnr g (dummyImAt exp env dl0 i)) ∧
    ((List.range' k n).foldl (trainStep exp env g) st).tl.ssim
      = st.tl.ssim ++ ((List.range' k n).filter fun i => decide (i % exp.val_size = 0)).map
          (fun i => env.ssim g (dummyImAt exp env dl0 i)) ∧
    ((List.range' k n).foldl (trainStep exp env g) st).tl.mse
      = st.tl.mse ++ ((List.range' k n).filter fun i => decide (i % exp.val_size = 0)).map
          (fun i => env.mse g (dummyImAt exp env dl0 i)) := by
  induction n with
  | zero => intro k st hst; simp [hst]
  | succ n ih =>
    intro k st hst
    have hdl : (trainStep exp env g st k).dl = dlIter exp env dl0 (k + 1) := by
      rw [trainStep_dl, hst]; rfl
    obtain ⟨ihdl, ihhist, ihp, ihs, ihm⟩ := ih (k + 1) (trainStep exp env g st k) hdl
    have hkn : k + 1 + n = k + (n + 1) := by omega
    rw [List.range'_succ, List.foldl_cons]
    refine ⟨by rw [ihdl, hkn], ?_, ?_, ?_, ?_⟩ <;>
      by_cases hk : k % exp.val_size = 0 <;>
        simp [ihhist, ihp, ihs, ihm, trainStep_hist, trainStep_psnr, trainStep_ssim,
          trainStep_mse, hst, hk, List.filter_cons, histEntryAt, dummyImAt, dlIter]

/-- The full loop of one `train` call, characterized by the snapshot epochs. -/
lemma trainFold_spec (exp : Experiment) (env : Env) (d0 l0 : Tensor) :
    (trainFold exp env d0 l0).hist
      = (snapshotEpochs exp.num_epochs exp.val_size).map (histEntryAt exp env (d0, l0)) ∧
    (trainFold exp env d0 l0).tl.psnr
      = (snapshotEpochs exp.num_epochs exp.val_size).map
          (fun i => env.psnr (env.firstImage exp.gt_data) (dummyImAt exp env (d0, l0) i)) ∧
    (trainFold exp env d0 l0).tl.ssim
      = (snapshotEpochs exp.num_epochs exp.val_size).map
          (fun i => env.ssim (env.firstImage exp.gt_data) (dummyImAt exp env (d0, l0) i)) ∧
    (trainFold exp env d0 l0).tl.mse
      = (snapshotEpochs exp.num_epochs exp.val_size).map
          (fun i => env.mse (env.firstImage exp.gt_data) (dummyImAt exp env (d0, l0) i)) := by
  have h := trainFold_go exp env (env.firstImage exp.gt_data) (d0, l0) exp.num_epochs 0
    { dl := (d0, l0), hist := [], tl := { psnr := [], ssim := [], mse := [] } } rfl
  unfold trainFold snapshotEpochs
  rw [List.range_eq_range']
  exact ⟨by simpa using h.2.1, by simpa using h.2.2.1, by simpa using h.2.2.2.1,
    by simpa using h.2.2.2.2⟩

/-- The number of recorded snapshot epochs equals `ceil(num_epochs/val_size)`,
written `(num_epochs + val_size - 1) / val_size` in natural division. -/
lemma length_snapshotEpochs (v : ℕ) (hv : 0 < v) :
    ∀ n, (snapshotEpochs n v).length = (n + v - 1) / v := by
  intro n
  unfold snapshotEpochs
  induction n with
  | zero =>
    simp only [List.range_zero, List.filter_nil, List.length_nil]
    exact (Nat.div_eq_of_lt (by omega)).symm
  | succ n ih =>
    rw [List.range_succ, List.filter_append, List.length_append, ih]
    have hq := Nat.div_add_mod n v
    by_cases hk : n % v = 0
    · have hsing : (List.filter (fun i => decide (i % v = 0)) [n]).length = 1 := by
        simp [hk]
      have h1 : n + v - 1 = v * (n / v) + (v - 1) := by omega
      have h2 : n + 1 + v - 1 = v * (n / v) + v := by omega
      rw [hsing, h1, h2, Nat.mul_add_div hv, Nat.mul_add_div hv,
        Nat.div_eq_of_lt (show v - 1 < v by omega), Nat.div_self hv]
    · have hsing : (List.filter (fun i => decide (i % v = 0)) [n]).length = 0 := by
        simp [hk]
      have h1 : n + v - 1 = v * (n / v) + (n % v - 1 + v) := by omega
      have h2 : n + 1 + v - 1 = v * (n / v) + (n % v + v) := by omega
      have hlt : n % v < v := Nat.mod_lt _ hv
      rw [hsing, h1, h2, Nat.mul_add_div hv, Nat.mul_add_div hv,
        Nat.add_div_right _ hv, Nat.add_div_right _ hv,
        Nat.div_eq_of_lt (show n % v - 1 < v by omega),
        Nat.div_eq_of_lt hlt]

/-- With a positive number of epochs the very first snapshot is at epoch 0. -/
lemma head_snapshotEpochs (n v : ℕ) (hn : 0 < n) :
    (snapshotEpochs n v).head? = some 0 := by
  unfold snapshotEpochs
  obtain ⟨m, rfl⟩ : ∃ m, n = m + 1 := ⟨n - 1, by omega⟩
  rw [List.range_succ_eq_map]
  simp [List.filter_cons]

/-! ### Auxiliary lemmas about invalid configurations -/

lemma init_data_invalid (exp : Experiment) (rng : RNG)
    (hi1 : exp.init_type ≠ "uniform") (hi2 : exp.init_type ≠ "gaussian")
    (hi3 : exp.init_type ≠ "gaussian_shift") :
    exp.init_data rng = .error (.valueError initTypeMsg) := by
  unfold Experiment.init_data
  simp [hi1, hi2, hi3]

lemma train_invalid_init_type (exp : Experiment) (env : Env) (rng : RNG)
    (hi1 : exp.init_type ≠ "uniform") (hi2 : exp.init_type ≠ "gaussian")
    (hi3 : exp.init_type ≠ "gaussian_shift") :
    exp.train env rng = .error (.valueError initTypeMsg) := by
  unfold Experiment.train
  rw [init_data_invalid exp rng hi1 hi2 hi3]

/-! ### Claims -/

/-- **C1** (corrected): the claim states that at the start of every objective
evaluation inside the per-epoch step of `train()`, previously accumulated
gradients are cleared on dummy_data/dummy_label *and on the classifier's
parameters*. This is false: `optimizer.zero_grad()` clears only the
optimizer's registered parameters `[dummy_data, dummy_label]`, so after one
closure evaluation whose `backward()` accumulated gradient `1` on a classifier
parameter, the clearing step at the start of the next evaluation still leaves
that accumulated gradient in place — it persists into the next pass. -/
theorem c1_net_grad_persists_counterexample :
    (optimizerZeroGrad (closureEval
        { dummyData := [1], dummyLabel := [1], netParams := [1] }
        { dummyData := [0], dummyLabel := [0], netParams := [0] })).netParams = [1] ∧
    ([1] : List ℚ) ≠ [0] := by
  refine ⟨?_, by simp⟩
  simp [optimizerZeroGrad, closureEval, backwardAccumulate]

/-- **C1** (amended): at the start of every objective evaluation,
`optimizer.zero_grad()` clears the previously accumulated gradients on
dummy_data and dummy_label (the parameters registered with the L-BFGS
optimizer) only; the gradients accumulated on the classifier's parameters by
`grad_diff.backward()` are not cleared and keep accumulating across
evaluations. -/
theorem c1_zero_grad_clears_only_optimizer_params (s : GradAccum) (b : BackwardGrads) :
    (optimizerZeroGrad s).dummyData = s.dummyData.map (fun _ => 0) ∧
    (optimizerZeroGrad s).dummyLabel = s.dummyLabel.map (fun _ => 0) ∧
    (optimizerZeroGrad s).netParams = s.netParams ∧
    (closureEval b s).netParams = List.zipWith (· + ·) s.netParams b.netParams :=
  ⟨rfl, rfl, rfl, rfl⟩

/-- **C2** (counterexample): with `measure="l1"` (and an otherwise valid
configuration), construction does fail with the InvalidConfiguration
`ValueError`, but the constructor trace shows that the original gradient
computation was performed before the failure — contradicting the claim that
the failure occurs before any gradient computation. -/
theorem c2_invalid_measure_after_grad_counterexample :
    (expInit 2 1 "l1" "CIFAR" [] "uniform" 1 1 1 (1/2) env0).2
      = .error (.valueError measureMsg) ∧
    (expInit 2 1 "l1" "CIFAR" [] "uniform" 1 1 1 (1/2) env0).1
      = [.loadDataset, .loadGroundTruths, .computeOriginalGrad, .createLossMeasure] ∧
    InitEvent.computeOriginalGrad
      ∈ (expInit 2 1 "l1" "CIFAR" [] "uniform" 1 1 1 (1/2) env0).1 := by
  refine ⟨rfl, rfl, by decide⟩

/-- **C2** (amended): for every configuration with a recognized dataset name
and a `measure` value that is neither "euclidean" nor "gaussian", `Experiment`
construction fails with the InvalidConfiguration `ValueError` — at setup,
before the training loop — but only after the dataset has been loaded, the
ground truths formatted and the original gradient computed, as the constructor
trace records. -/
theorem c2_invalid_measure_fails_at_setup_after_grad (ne bs : ℕ) (ms dn : String)
    (ii : List ℕ) (it : String) (Q : ℚ) (vs ni : ℕ) (lr : ℚ) (env : Env)
    (hd : dn = "CIFAR" ∨ dn = "MNIST" ∨ dn = "Omniglot" ∨ dn = "SVHN")
    (h1 : ms ≠ "euclidean") (h2 : ms ≠ "gaussian") :
    (expInit ne bs ms dn ii it Q vs ni lr env).2 = .error (.valueError measureMsg) ∧
    (expInit ne bs ms dn ii it Q vs ni lr env).1
      = [.loadDataset, .loadGroundTruths, .computeOriginalGrad, .createLossMeasure] := by
  rcases hd with rfl | rfl | rfl | rfl <;>
    constructor <;>
      simp [expInit, load_dataset, create_loss_measure, h1, h2]

/-- **C2** (witness): the amended theorem evaluated at the concrete
configuration `measure="l1"`, `data="SVHN"`. -/
theorem c2_invalid_measure_witness :
    (expInit 2 1 "l1" "SVHN" [] "uniform" 1 1 1 (1/2) env0).2
      = .error (.valueError measureMsg) ∧
    (expInit 2 1 "l1" "SVHN" [] "uniform" 1 1 1 (1/2) env0).1
      = [.loadDataset, .loadGroundTruths, .computeOriginalGrad, .createLossMeasure] :=
  c2_invalid_measure_fails_at_setup_after_grad 2 1 "l1" "SVHN" [] "uniform" 1 1 1 (1/2)
    env0 (by decide) (by decide) (by decide)

/-- **C3** (counterexample): with `init_type="bimodal"` (and an otherwise
valid configuration) `Experiment` construction succeeds — no error is raised
at setup, contradicting the claim — and the InvalidConfiguration `ValueError`
is raised only later, by the `train()` call. -/
theorem c3_invalid_init_type_constructs_counterexample :
    (expInit 2 1 "euclidean" "CIFAR" [] "bimodal" 1 1 1 (1/2) env0).2 = .ok expBim ∧
    expBim.train env0 rng0 = .error (.valueError initTypeMsg) :=
  ⟨rfl, rfl⟩

/-- **C3** (amended): for every configuration with a recognized dataset name
and a valid measure but an `init_type` not among "uniform", "gaussian",
"gaussian_shift", `Experiment` construction succeeds, and the
InvalidConfiguration `ValueError` is raised at the start of every `train()`
call (inside `init_data`), before any optimization epoch — not at
construction. -/
theorem c3_invalid_init_type_fails_in_first_train (ne bs : ℕ) (ms dn : String)
    (ii : List ℕ) (it : String) (Q : ℚ) (vs ni : ℕ) (lr : ℚ) (env env' : Env)
    (rng : RNG) (exp : Experiment)
    (hi1 : it ≠ "uniform") (hi2 : it ≠ "gaussian") (hi3 : it ≠ "gaussian_shift")
    (h : (expInit ne bs ms dn ii it Q vs ni lr env).2 = .ok exp) :
    isOk (expInit ne bs ms dn ii it Q vs ni lr env).2 = true ∧
    exp.train env' rng = .error (.valueError initTypeMsg) := by
  obtain ⟨dst, lm, hld, hcm, htr, hexp⟩ :=
    expInit_ok_inv ne bs ms dn ii it Q vs ni lr env exp h
  have hit : exp.init_type = it := by rw [hexp]
  refine ⟨by rw [h]; rfl, ?_⟩
  exact train_invalid_init_type exp env' rng (hit ▸ hi1) (hit ▸ hi2) (hit ▸ hi3)

/-- **C3** (witness): the amended theorem evaluated at the concrete
configuration `init_type="bimodal"`, `data="CIFAR"`, `measure="euclidean"`. -/
theorem c3_invalid_init_type_witness :
    isOk (expInit 2 1 "euclidean" "CIFAR" [] "bimodal" 1 1 1 (1/2) env0).2 = true ∧
    expBim.train env0 rng0 = .error (.valueError initTypeMsg) :=
  c3_invalid_init_type_fails_in_first_train 2 1 "euclidean" "CIFAR" [] "bimodal" 1 1 1
    (1/2) env0 env0 rng0 expBim (by decide) (by decide) (by decide) rfl

/-- **C10** (confirmed): for every configuration whose `data` value is not one
of "CIFAR", "MNIST", "Omniglot", "SVHN", `Experiment` construction fails
immediately at the dataset-dictionary lookup with a `KeyError` carrying the
unknown name — not with the InvalidConfiguration `ValueError` used for
measure/init_type — and no later constructor step runs. -/
theorem c10_unknown_dataset_key_error (ne bs : ℕ) (ms dn : String) (ii : List ℕ)
    (it : String) (Q : ℚ) (vs ni : ℕ) (lr : ℚ) (env : Env)
    (h1 : dn ≠ "CIFAR") (h2 : dn ≠ "MNIST") (h3 : dn ≠ "Omniglot") (h4 : dn ≠ "SVHN") :
    expInit ne bs ms dn ii it Q vs ni lr env = ([.loadDataset], .error (.keyError dn)) ∧
    isInvalidConfiguration (expInit ne bs ms dn ii it Q vs ni lr env).2 = false := by
  have hld : load_dataset dn env = .error (.keyError dn) := by
    unfold load_dataset
    simp [h1, h2, h3, h4]
  constructor
  · simp [expInit, hld]
  · simp [expInit, hld, isInvalidConfiguration]

/-- **C10** (witness): the theorem evaluated at the concrete configuration
`data="ImageNet"`. -/
theorem c10_unknown_dataset_witness :
    expInit 2 1 "euclidean" "ImageNet" [] "uniform" 1 1 1 (1/2) env0
      = ([.loadDataset], .error (.keyError "ImageNet")) ∧
    isInvalidConfiguration
      (expInit 2 1 "euclidean" "ImageNet" [] "uniform" 1 1 1 (1/2) env0).2 = false :=
  c10_unknown_dataset_key_error 2 1 "euclidean" "ImageNet" [] "uniform" 1 1 1 (1/2) env0
    (by decide) (by decide) (by decide) (by decide)

/-- **C4** (confirmed): on a fresh `Experiment` (empty history and losses)
with positive `num_epochs` and `val_size`, one completed `train()` call
records exactly `ceil(num_epochs / val_size)` snapshots — written
`(num_epochs + val_size - 1) / val_size` in natural division — the first of
them at epoch 0; each snapshot appends exactly one entry to `history` and
exactly one scalar to each of the per-run psnr/ssim/mse series, every scalar
computed with the first ground-truth image of the batch as reference. -/
theorem c4_snapshot_count (exp : Experiment) (env : Env) (rng : RNG)
    (exp' : Experiment) (d0 l0 : Tensor)
    (hh : exp.history = [])
    (hl : exp.losses = { psnr := [], ssim := [], mse := [] })
    (hn : 0 < exp.num_epochs) (hv : 0 < exp.val_size)
    (hid : exp.init_data rng = .ok (d0, l0))
    (ht : exp.train env rng = .ok exp') :
    (snapshotEpochs exp.num_epochs exp.val_size).length
      = (exp.num_epochs + exp.val_size - 1) / exp.val_size ∧
    (snapshotEpochs exp.num_epochs exp.val_size).head? = some 0 ∧
    exp'.history
      = (snapshotEpochs exp.num_epochs exp.val_size).map (histEntryAt exp env (d0, l0)) ∧
    exp'.history.length = (exp.num_epochs + exp.val_size - 1) / exp.val_size ∧
    exp'.losses.psnr = [(snapshotEpochs exp.num_epochs exp.val_size).map
      (fun i => env.psnr (env.firstImage exp.gt_data) (dummyImAt exp env (d0, l0) i))] ∧
    exp'.losses.ssim = [(snapshotEpochs exp.num_epochs exp.val_size).map
      (fun i => env.ssim (env.firstImage exp.gt_data) (dummyImAt exp env (d0, l0) i))] ∧
    exp'.losses.mse = [(snapshotEpochs exp.num_epochs exp.val_size).map
      (fun i => env.mse (env.firstImage exp.gt_data) (dummyImAt exp env (d0, l0) i))] := by
  obtain ⟨d0', l0', hid', hexp'⟩ := train_ok_inv exp env rng exp' ht
  rw [hid] at hid'
  injection hid' with hp
  cases hp
  obtain ⟨hf1, hf2, hf3, hf4⟩ := trainFold_spec exp env d0 l0
  have hlen := length_snapshotEpochs exp.val_size hv exp.num_epochs
  have hhist : exp'.history
      = (snapshotEpochs exp.num_epochs exp.val_size).map (histEntryAt exp env (d0, l0)) := by
    rw [hexp']
    show exp.history ++ (trainFold exp env d0 l0).hist = _
    rw [hh, hf1, List.nil_append]
  refine ⟨hlen, head_snapshotEpochs _ _ hn, hhist, by rw [hhist, List.length_map, hlen],
    ?_, ?_, ?_⟩
  · rw [hexp']
    show exp.losses.psnr ++ [(trainFold exp env d0 l0).tl.psnr] = _
    rw [hl, hf2, List.nil_append]
  · rw [hexp']
    show exp.losses.ssim ++ [(trainFold exp env d0 l0).tl.ssim] = _
    rw [hl, hf3, List.nil_append]
  · rw [hexp']
    show exp.losses.mse ++ [(trainFold exp env d0 l0).tl.mse] = _
    rw [hl, hf4, List.nil_append]

/-- **C4** (witness): the theorem evaluated on the concrete experiment `expC`
(3 epochs, snapshot interval 2, so `ceil(3/2) = 2` snapshots). -/
theorem c4_snapshot_count_witness :
    (snapshotEpochs expC.num_epochs expC.val_size).length
      = (expC.num_epochs + expC.val_size - 1) / expC.val_size ∧
    (snapshotEpochs expC.num_epochs expC.val_size).head? = some 0 ∧
    expCT.history
      = (snapshotEpochs expC.num_epochs expC.val_size).map
          (histEntryAt expC env0 (dlC.1, dlC.2)) ∧
    expCT.history.length = (expC.num_epochs + expC.val_size - 1) / expC.val_size ∧
    expCT.losses.psnr = [(snapshotEpochs expC.num_epochs expC.val_size).map
      (fun i => env0.psnr (env0.firstImage expC.gt_data) (dummyImAt expC env0 (dlC.1, dlC.2) i))] ∧
    expCT.losses.ssim = [(snapshotEpochs expC.num_epochs expC.val_size).map
      (fun i => env0.ssim (env0.firstImage expC.gt_data) (dummyImAt expC env0 (dlC.1, dlC.2) i))] ∧
    expCT.losses.mse = [(snapshotEpochs expC.num_epochs expC.val_size).map
      (fun i => env0.mse (env0.firstImage expC.gt_data) (dummyImAt expC env0 (dlC.1, dlC.2) i))] :=
  c4_snapshot_count expC env0 rng0 expCT dlC.1 dlC.2 rfl rfl (by decide) (by decide) rfl rfl

/-- **C5** (confirmed): the original gradient list is computed exactly once
during setup (the constructor trace contains one `computeOriginalGrad` step
and `train` contains none), each of its tensors is the detached clone of the
corresponding autograd output (so none requires grad or is attached to the
graph), and a completed `train()` call leaves `original_dy_dx` unchanged. -/
theorem c5_original_grad_immutable (ne bs : ℕ) (ms dn : String) (ii : List ℕ)
    (it : String) (Q : ℚ) (vs ni : ℕ) (lr : ℚ) (env env' : Env) (rng : RNG)
    (exp exp' : Experiment)
    (h : (expInit ne bs ms dn ii it Q vs ni lr env).2 = .ok exp)
    (ht : exp.train env' rng = .ok exp') :
    (expInit ne bs ms dn ii it Q vs ni lr env).1.count .computeOriginalGrad = 1 ∧
    exp.original_dy_dx
      = (env.autogradGrad exp.gt_data exp.gt_onehot_label).map detachClone ∧
    exp.original_dy_dx.all (fun t => !t.requiresGrad && !t.attachedToGraph) = true ∧
    exp'.original_dy_dx = exp.original_dy_dx := by
  obtain ⟨dst, lm, hld, hcm, htr, hexp⟩ :=
    expInit_ok_inv ne bs ms dn ii it Q vs ni lr env exp h
  obtain ⟨d0, l0, hid, hexp'⟩ := train_ok_inv exp env' rng exp' ht
  subst hexp
  refine ⟨by rw [htr]; rfl, rfl, ?_, by rw [hexp']⟩
  simp [compute_original_grad, detachClone, List.all_map, Function.comp]

/-- **C5** (witness): the theorem evaluated on the concrete euclidean
experiment `expE` and its training result `expET`. -/
theorem c5_original_grad_immutable_witness :
    (expInit 2 1 "euclidean" "CIFAR" [] "uniform" 1 1 1 (1/2) env0).1.count
      .computeOriginalGrad = 1 ∧
    expE.original_dy_dx
      = (env0.autogradGrad expE.gt_data expE.gt_onehot_label).map detachClone ∧
    expE.original_dy_dx.all (fun t => !t.requiresGrad && !t.attachedToGraph) = true ∧
    expET.original_dy_dx = expE.original_dy_dx :=
  c5_original_grad_immutable 2 1 "euclidean" "CIFAR" [] "uniform" 1 1 1 (1/2) env0 env0
    rng0 expE expET rfl rfl

/-- **C6** (confirmed): when `measure = "gaussian"`, the kernel parameter
sigma is computed once at setup (the constructor trace contains one
`createLossMeasure` step) as the variance of the concatenation of all
flattened original-gradient tensors, the resulting measure carries this sigma
together with the user-supplied `Q`, and `train()` leaves the measure
unchanged. -/
theorem c6_gaussian_sigma_once (ne bs : ℕ) (dn : String) (ii : List ℕ) (it : String)
    (Q : ℚ) (vs ni : ℕ) (lr : ℚ) (env env' : Env) (rng : RNG) (exp exp' : Experiment)
    (h : (expInit ne bs "gaussian" dn ii it Q vs ni lr env).2 = .ok exp)
    (ht : exp.train env' rng = .ok exp') :
    exp.loss_measure
      = .gaussian (torchVar ((exp.original_dy_dx.map Tensor.data).flatten)) Q ∧
    exp.Q = Q ∧
    (expInit ne bs "gaussian" dn ii it Q vs ni lr env).1.count .createLossMeasure = 1 ∧
    exp'.loss_measure = exp.loss_measure := by
  obtain ⟨dst, lm, hld, hcm, htr, hexp⟩ :=
    expInit_ok_inv ne bs "gaussian" dn ii it Q vs ni lr env exp h
  obtain ⟨d0, l0, hid, hexp'⟩ := train_ok_inv exp env' rng exp' ht
  simp only [create_loss_measure] at hcm
  rw [if_pos trivial] at hcm
  injection hcm with hlm
  subst hexp
  subst hlm
  exact ⟨rfl, rfl, by rw [htr]; rfl, by rw [hexp']⟩

/-- **C6** (witness): the theorem evaluated on the concrete gaussian
experiment `expG` (with `Q = 3/2`) and its training result `expGT`. -/
theorem c6_gaussian_sigma_once_witness :
    expG.loss_measure
      = .gaussian (torchVar ((expG.original_dy_dx.map Tensor.data).flatten)) (3/2) ∧
    expG.Q = 3/2 ∧
    (expInit 2 1 "gaussian" "CIFAR" [] "uniform" (3/2) 1 1 (1/2) env0).1.count
      .createLossMeasure = 1 ∧
    expGT.loss_measure = expG.loss_measure :=
  c6_gaussian_sigma_once 2 1 "CIFAR" [] "uniform" (3/2) 1 1 (1/2) env0 env0 rng0
    expG expGT rfl rfl

/-- **C7** (confirmed): `init_data` never reads ground-truth pixel or label
values — for two experiments with the same `init_type` and the same
ground-truth tensor shapes but arbitrary (possibly different) ground-truth
values, the same random source yields identical dummy_data and dummy_label. -/
theorem c7_init_data_ignores_gt_values (e1 e2 : Experiment) (rng : RNG)
    (h1 : e1.init_type = e2.init_type)
    (h2 : e1.gt_data.shape = e2.gt_data.shape)
    (h3 : e1.gt_onehot_label.shape = e2.gt_onehot_label.shape) :
    e1.init_data rng = e2.init_data rng := by
  unfold Experiment.init_data
  rw [h1, h2, h3]

/-- **C7** (witness): the theorem evaluated on two concrete experiments whose
ground-truth tensors share shapes `[1,2]` / `[1,3]` but hold different pixel
and label values. -/
theorem c7_init_data_ignores_gt_values_witness :
    expGtA.init_data rng0 = expGtB.init_data rng0 :=
  c7_init_data_ignores_gt_values expGtA expGtB rng0 rfl rfl rfl

/-- **C8** (confirmed): `init_data` samples dummy_data and dummy_label
elementwise from the distribution selected by `init_type` — fresh U(0,1)
stream draws for "uniform", fresh N(0,1) stream draws for "gaussian", and
`1/2 + (1/2)·z` for fresh standard-normal draws `z` under "gaussian_shift"
(mean 1/2, standard deviation 1/2, hence variance 1/4) — and both returned
tensors have gradient tracking enabled. -/
theorem c8_init_data_distributions (exp : Experiment) (rng : RNG) :
    (exp.init_type = "uniform" →
      exp.init_data rng = .ok
        ({ shape := exp.gt_data.shape
           data := (List.range (numel exp.gt_data.shape)).map (fun i => rng.uniforms i)
           requiresGrad := true, attachedToGraph := false },
         { shape := exp.gt_onehot_label.shape
           data := (List.range (numel exp.gt_onehot_label.shape)).map
             (fun i => rng.uniforms (numel exp.gt_data.shape + i))
           requiresGrad := true, attachedToGraph := false })) ∧
    (exp.init_type = "gaussian" →
      exp.init_data rng = .ok
        ({ shape := exp.gt_data.shape
           data := (List.range (numel exp.gt_data.shape)).map (fun i => rng.normals i)
           requiresGrad := true, attachedToGraph := false },
         { shape := exp.gt_onehot_label.shape
           data := (List.range (numel exp.gt_onehot_label.shape)).map
             (fun i => rng.normals (numel exp.gt_data.shape + i))
           requiresGrad := true, attachedToGraph := false })) ∧
    (exp.init_type = "gaussian_shift" →
      exp.init_data rng = .ok
        ({ shape := exp.gt_data.shape
           data := (List.range (numel exp.gt_data.shape)).map
             (fun i => 1/2 + 1/2 * rng.normals i)
           requiresGrad := true, attachedToGraph := false },
         { shape := exp.gt_onehot_label.shape
           data := (List.range (numel exp.gt_onehot_label.shape)).map
             (fun i => 1/2 + 1/2 * rng.normals (numel exp.gt_data.shape + i))
           requiresGrad := true, attachedToGraph := false })) := by
  refine ⟨fun hit => ?_, fun hit => ?_, fun hit => ?_⟩ <;>
    simp [Experiment.init_data, hit, torchRand, torchRandn, torchNormal, requiresGrad_]

/-- **C8** (witness): the three branches of the theorem evaluated at concrete
experiments with shapes `[1,2]` / `[1,3]` and each of the three recognized
`init_type` values. -/
theorem c8_init_data_distributions_witness :
    (expGtA.init_data rng0 = .ok
      ({ shape := expGtA.gt_data.shape
         data := (List.range (numel expGtA.gt_data.shape)).map (fun i => rng0.uniforms i)
         requiresGrad := true, attachedToGraph := false },
       { shape := expGtA.gt_onehot_label.shape
         data := (List.range (numel expGtA.gt_onehot_label.shape)).map
           (fun i => rng0.uniforms (numel expGtA.gt_data.shape + i))
         requiresGrad := true, attachedToGraph := false })) ∧
    (expGtG.init_data rng0 = .ok
      ({ shape := expGtG.gt_data.shape
         data := (List.range (numel expGtG.gt_data.shape)).map (fun i => rng0.normals i)
         requiresGrad := true, attachedToGraph := false },
       { shape := expGtG.gt_onehot_label.shape
         data := (List.range (numel expGtG.gt_onehot_label.shape)).map
           (fun i => rng0.normals (numel expGtG.gt_data.shape + i))
         requiresGrad := true, attachedToGraph := false })) ∧
    (expGtS.init_data rng0 = .ok
      ({ shape := expGtS.gt_data.shape
         data := (List.range (numel expGtS.gt_data.shape)).map
           (fun i => 1/2 + 1/2 * rng0.normals i)
         requiresGrad := true, attachedToGraph := false },
       { shape := expGtS.gt_onehot_label.shape
         data := (List.range (numel expGtS.gt_onehot_label.shape)).map
           (fun i => 1/2 + 1/2 * rng0.normals (numel expGtS.gt_data.shape + i))
         requiresGrad := true, attachedToGraph := false })) :=
  ⟨(c8_init_data_distributions expGtA rng0).1 rfl,
   (c8_init_data_distributions expGtG rng0).2.1 rfl,
   (c8_init_data_distributions expGtS rng0).2.2 rfl⟩

/-- **C9** (confirmed): every completed `train()` call appends exactly one new
per-run scalar sequence to each of the psnr, ssim and mse series of `losses`,
preserving all previously accumulated sequences as a prefix — hence across
repeated invocations the series only grow and are never reset. -/
theorem c9_losses_append_one_per_train (exp : Experiment) (env : Env) (rng : RNG)
    (exp' : Experiment) (ht : exp.train env rng = .ok exp') :
    ∃ sp ss sm,
      exp'.losses.psnr = exp.losses.psnr ++ [sp] ∧
      exp'.losses.ssim = exp.losses.ssim ++ [ss] ∧
      exp'.losses.mse = exp.losses.mse ++ [sm] := by
  obtain ⟨d0, l0, hid, hexp'⟩ := train_ok_inv exp env rng exp' ht
  exact ⟨_, _, _, by rw [hexp'], by rw [hexp'], by rw [hexp']⟩

/-- **C9** (witness): the theorem evaluated on the concrete experiment `expE`
and its training result `expET`. -/
theorem c9_losses_append_one_per_train_witness :
    ∃ sp ss sm,
      expET.losses.psnr = expE.losses.psnr ++ [sp] ∧
      expET.losses.ssim = expE.losses.ssim ++ [ss] ∧
      expET.losses.mse = expE.losses.mse ++ [sm] :=
  c9_losses_append_one_per_train expE env0 rng0 expET rfl

end DLG
